import Mathlib

/-!
Shallow embedding of `ts_diagnostic.py` (TypeScript Project Diagnostic Script).

Modelling conventions:
* A subprocess invocation (`subprocess.run`) is modelled by an oracle
  `List String → ExecResult`: for each argument vector the operating system
  either produces captured stdout/stderr texts or raises an exception whose
  `str()` rendering is a message string.
* Each check function returns the list of its `print` calls, in order
  (each list element is the argument of one `print`).  Where an uncaught
  Python exception can escape the function, the function additionally
  returns a `Bool` that is `true` exactly when the exception propagates;
  in that case the returned list holds the lines printed before the raise.
* Values produced by `json.load` are modelled by `JValue` (numbers as `Int`;
  the distinction between ints and floats plays no role here).  A parse
  failure (`json.JSONDecodeError`) is `Except.error ()`.  Objects produced
  by the parser have pairwise distinct keys.
* Python `str.strip` is modelled over the ASCII whitespace characters it
  strips; the dependency-name strings handled here are ASCII, as is the
  lowercasing in `str.lower`.
-/

/-- Outcome of one subprocess invocation, as seen by `runCmd`. -/
inductive ExecResult where
  | ok (stdout stderr : String)
  | exn (msg : String)
deriving DecidableEq

/-- Model of the command runner `run_cmd(cmd, capture_stderr)` (the Python
name is not a legal Lean identifier here): run the argument vector via the
oracle; with `capture_stderr` return stdout concatenated with stderr,
otherwise stdout alone; on an exception return its `str()` text. -/
def runCmd (os : List String → ExecResult) (cmd : List String)
    (capture_stderr : Bool) : String :=
  match os cmd with
  | ExecResult.ok out err => if capture_stderr then out ++ err else out
  | ExecResult.exn e => e

/-- Python whitespace characters stripped by `str.strip()` (ASCII range). -/
def pyWS (c : Char) : Bool :=
  c = ' ' || c = '\t' || c = '\n' || c = '\x0d' || c = '\x0b' || c = '\x0c'

/-- Model of `str.strip()`: drop leading and trailing whitespace. -/
def pyStrip (s : String) : String :=
  String.mk (((s.data.dropWhile pyWS).reverse.dropWhile pyWS).reverse)

/-- Model of `sep.join(xs)`. -/
def pyJoin (sep : String) : List String → String
  | [] => ""
  | [x] => x
  | x :: xs => x ++ sep ++ pyJoin sep xs

/-- Split a character list at every occurrence of `sep`, keeping empty
groups, as Python `str.split` with a one-character separator does. -/
def splitOnChar (sep : Char) : List Char → List (List Char)
  | [] => [[]]
  | c :: rest =>
    match splitOnChar sep rest with
    | [] => [[]]
    | grp :: grps => if c = sep then [] :: grp :: grps else (c :: grp) :: grps

/-- Model of `s.split` at the newline character. -/
def pySplitNL (s : String) : List String :=
  (splitOnChar '\n' s.data).map String.mk

/-- Model of `str.lower()` (dependency names here are ASCII). -/
def pyLower (s : String) : String :=
  String.mk (s.data.map Char.toLower)

/-- Model of the Python substring test `needle in hay`. -/
def isSubstring (needle hay : List Char) : Bool :=
  match hay with
  | [] => needle.isEmpty
  | _ :: rest => needle.isPrefixOf hay || isSubstring needle rest

/-- Worker for `pyCount`: scan left to right, at a match add one and skip
past it, otherwise advance one character.  The `fuel` argument only forces
structural recursion; every step strictly shrinks `hay`, so any fuel of at
least `hay.length + 1` gives the fuel-free behaviour. -/
def pyCountFuel (needle : List Char) : List Char → Nat → Nat
  | _, 0 => 0
  | hay, fuel + 1 =>
    match needle, hay with
    | [], rest => rest.length + 1
    | _ :: _, [] => 0
    | n :: ns, c :: cs =>
      if (n :: ns).isPrefixOf (c :: cs) then
        1 + pyCountFuel (n :: ns) ((c :: cs).drop (n :: ns).length) fuel
      else
        pyCountFuel (n :: ns) cs fuel

/-- Model of `hay.count(needle)`: number of non-overlapping occurrences,
scanning left to right and skipping past each match, as CPython does. -/
def pyCount (needle hay : List Char) : Nat :=
  pyCountFuel needle hay (hay.length + 1)

/-- Values produced by `json.load`. -/
inductive JValue where
  | null
  | bool (b : Bool)
  | num (n : Int)
  | str (s : String)
  | arr (elems : List JValue)
  | obj (entries : List (String × JValue))

/-- Key lookup in a parsed JSON object (keys are pairwise distinct). -/
def lookupKey : List (String × JValue) → String → Option JValue
  | [], _ => none
  | (k, v) :: rest, key => if k = key then some v else lookupKey rest key

/-- Model of `d.get(key, dflt)`: succeeds on a dict, raises `AttributeError`
(`Except.error`) on every other value. -/
def jvGetD (v : JValue) (key : String) (dflt : JValue) : Except Unit JValue :=
  match v with
  | JValue.obj entries => Except.ok ((lookupKey entries key).getD dflt)
  | _ => Except.error ()

/-- Python truthiness of a `json.load` value. -/
def pyTruthy : JValue → Bool
  | JValue.null => false
  | JValue.bool b => b
  | JValue.num n => n != 0
  | JValue.str s => s != ""
  | JValue.arr elems => !elems.isEmpty
  | JValue.obj entries => !entries.isEmpty

mutual
/-- Python `repr()` of a `json.load` value, as an f-string renders
containers and `None`/`True`/`False`. -/
def pyRepr : JValue → String
  | JValue.null => "None"
  | JValue.bool true => "True"
  | JValue.bool false => "False"
  | JValue.num n => toString n
  | JValue.str s => "\x27" ++ s ++ "\x27"
  | JValue.arr elems => "[" ++ pyReprElems elems ++ "]"
  | JValue.obj entries => "\x7b" ++ pyReprEntries entries ++ "\x7d"

/-- Comma-separated `repr()`s of list elements. -/
def pyReprElems : List JValue → String
  | [] => ""
  | [e] => pyRepr e
  | e :: rest => pyRepr e ++ ", " ++ pyReprElems rest

/-- Comma-separated `repr()`s of dict entries. -/
def pyReprEntries : List (String × JValue) → String
  | [] => ""
  | [(k, v)] => "\x27" ++ k ++ "\x27: " ++ pyRepr v
  | (k, v) :: rest => "\x27" ++ k ++ "\x27: " ++ pyRepr v ++ ", " ++ pyReprEntries rest
end

/-- Python `str()` of a `json.load` value, as used by f-string interpolation. -/
def pyStr : JValue → String
  | JValue.str s => s
  | v => pyRepr v

/-- The `"-" * 40` separator line printed under every section header
(forty hyphens). -/
def dashes : String := "----------------------------------------"

/-- The four `flags` entries of `check_tsconfig`, in source order. -/
def tsconfigFlags : List (String × String) :=
  [("noUncheckedIndexedAccess", "Unchecked index access protection"),
   ("noImplicitOverride", "Implicit override protection"),
   ("skipLibCheck", "Skip lib check (performance)"),
   ("incremental", "Incremental compilation")]

/-- Model of `check_tsconfig()`.  Inputs: whether `tsconfig.json` exists and,
if so, the result of `json.load` on it.  Output: printed lines, plus `true`
when an uncaught exception (an `AttributeError` from `.get` on a non-dict)
escapes the function. -/
def check_tsconfig (tsconfigExists : Bool) (parsed : Except Unit JValue) :
    List String × Bool :=
  let hdr := ["\n⚙️ TSConfig Analysis:", dashes]
  if !tsconfigExists then
    (hdr ++ ["⚠️ tsconfig.json not found"], false)
  else
    match parsed with
    | Except.error _ => (hdr ++ ["❌ Invalid JSON in tsconfig.json"], false)
    | Except.ok config =>
      match jvGetD config ("compilerOptions") (JValue.obj []) with
      | Except.error _ => (hdr, true)
      | Except.ok compiler_opts =>
        match compiler_opts with
        | JValue.obj entries =>
          let strictLine :=
            if pyTruthy ((lookupKey entries ("strict")).getD JValue.null) then
              "✅ Strict mode enabled"
            else
              "⚠️ Strict mode NOT enabled"
          let flagLines := tsconfigFlags.map (fun fd =>
            let status :=
              if pyTruthy ((lookupKey entries fd.1).getD JValue.null) then "✅" else "⚪"
            "  " ++ status ++ " " ++ fd.2 ++ ": " ++
              pyStr ((lookupKey entries fd.1).getD (JValue.str "not set")))
          let tailLines :=
            ["\n  Module: " ++ pyStr ((lookupKey entries ("module")).getD (JValue.str "not set")),
             "  Module Resolution: " ++
               pyStr ((lookupKey entries ("moduleResolution")).getD (JValue.str "not set")),
             "  Target: " ++ pyStr ((lookupKey entries ("target")).getD (JValue.str "not set"))]
          (hdr ++ [strictLine] ++ flagLines ++ tailLines, false)
        | _ =>
          -- `compiler_opts.get("strict")` raises before any further print.
          (hdr, true)

/-- The `tools` dict of `check_tooling`, in source (insertion) order. -/
def tools : List (String × String) :=
  [("biome", "Biome (linter/formatter)"),
   ("eslint", "ESLint"),
   ("prettier", "Prettier"),
   ("vitest", "Vitest (testing)"),
   ("jest", "Jest (testing)"),
   ("turborepo", "Turborepo (monorepo)"),
   ("turbo", "Turbo (monorepo)"),
   ("nx", "Nx (monorepo)"),
   ("lerna", "Lerna (monorepo)")]

/-- Keys of a parsed JSON object in first-occurrence order (the parser
yields distinct keys; kept general). -/
def dedupKeysFirst : List String → List String
  | [] => []
  | k :: rest => k :: (dedupKeysFirst rest).filter (fun x => x ≠ k)

/-- Keys of `{**d1, **d2}` in Python dict-merge order: keys of `d1`, then
keys of `d2` that are new. -/
def mergedKeys (d1 d2 : List (String × JValue)) : List String :=
  let k1 := dedupKeysFirst (d1.map Prod.fst)
  let k2 := dedupKeysFirst (d2.map Prod.fst)
  k1 ++ k2.filter (fun k => !(k1.contains k))

/-- The inner `for dep in all_deps: if tool in dep.lower(): ...; break` of
`check_tooling`: `true` when some dependency name matches the fragment. -/
def firstDepMatch (tool : String) : List String → Bool
  | [] => false
  | dep :: rest =>
    if isSubstring tool.data (pyLower dep).data then true
    else firstDepMatch tool rest

/-- The outer `for tool, desc in tools.items()` loop of `check_tooling`:
one label line per fragment with a matching dependency name. -/
def toolsLoop (allDeps : List String) : List (String × String) → List String
  | [] => []
  | td :: rest =>
    (if firstDepMatch td.1 allDeps then ["  ✅ " ++ td.2] else []) ++
      toolsLoop allDeps rest

/-- Model of `check_tooling()`.  Inputs: whether `package.json` exists and,
if so, the result of `json.load` on it.  Output: printed lines, plus `true`
when an uncaught exception escapes (an `AttributeError` from `.get` on a
non-dict `pkg`, or a `TypeError` from `{**x}` on a non-mapping group). -/
def check_tooling (pkgExists : Bool) (parsed : Except Unit JValue) :
    List String × Bool :=
  let hdr := ["\n🛠️ Tooling Detection:", dashes]
  if !pkgExists then
    (hdr ++ ["⚠️ package.json not found"], false)
  else
    match parsed with
    | Except.error _ => (hdr ++ ["❌ Invalid JSON in package.json"], false)
    | Except.ok pkg =>
      match jvGetD pkg ("dependencies") (JValue.obj []),
            jvGetD pkg ("devDependencies") (JValue.obj []) with
      | Except.ok deps, Except.ok devDeps =>
        match deps, devDeps with
        | JValue.obj d1, JValue.obj d2 =>
          (hdr ++ toolsLoop (mergedKeys d1 d2) tools, false)
        | _, _ => (hdr, true)
      | _, _ => (hdr, true)

/-- The `indicators` list of `check_monorepo`, in source order. -/
def indicators : List (String × String) :=
  [("pnpm-workspace.yaml", "PNPM Workspace"),
   ("lerna.json", "Lerna"),
   ("nx.json", "Nx"),
   ("turbo.json", "Turborepo")]

/-- Model of `check_monorepo()`.  Input: the `Path(file).exists()` predicate
of the project root.  Output: printed lines. -/
def check_monorepo (fileExists : String → Bool) : List String :=
  let hdr := ["\n📦 Monorepo Check:", dashes]
  let foundLines := indicators.filterMap (fun fn =>
    if fileExists fn.1 then some ("  ✅ " ++ fn.2 ++ " detected") else none)
  hdr ++ foundLines ++
    (if foundLines.isEmpty then ["  ⚪ No monorepo configuration detected"] else [])

/-- Argument vector of the no-emit type check. -/
def tscNoEmit : List String := ["npx", "tsc", "--noEmit"]

/-- The literal substring searched for by `check_type_errors`. -/
def errTS : String := "error TS"

/-- The `result.split(chrNL)[:20]` / `join` truncation of `check_type_errors`:
keep only the first 20 lines. -/
def truncate20 (s : String) : String :=
  pyJoin "\n" ((pySplitNL s).take 20)

/-- Model of `check_type_errors()`: run the type check with merged stderr,
truncate to 20 lines, then either report a lower-bound error count plus the
first 500 characters of the truncated text, or report success. -/
def check_type_errors (os : List String → ExecResult) : List String :=
  let result := truncate20 (runCmd os tscNoEmit true)
  ["\n🔍 Type Check:", dashes] ++
    (if isSubstring errTS.data result.data then
      ["  ❌ " ++ toString (pyCount errTS.data result.data) ++ "+ type errors found",
       String.mk (result.data.take 500)]
    else
      ["  ✅ No type errors"])

/-- Argument vector of the unsafe-type-usage search. -/
def grepAnyCmd : List String :=
  ["grep", "-r", ": any", "--include=*.ts", "--include=*.tsx", "src/"]

/-- Argument vector of the type-assertion search. -/
def grepAsCmd : List String :=
  ["grep", "-r", " as ", "--include=*.ts", "--include=*.tsx", "src/"]

/-- The shared `result.strip().split(chrNL) if result.strip() else []` step
of both grep-based scanners. -/
def grepLines (os : List String → ExecResult) (cmd : List String) : List String :=
  let stripped := pyStrip (runCmd os cmd false)
  if stripped = "" then [] else pySplitNL stripped

/-- Model of `check_any_usage()`: count non-empty result lines; when
positive, print the count and then `lines[:5]` joined back together (when
that sample text is non-empty); otherwise print the success line. -/
def check_any_usage (os : List String → ExecResult) : List String :=
  let lines := grepLines os grepAnyCmd
  let count := (lines.filter (fun l => l != "")).length
  ["\n⚠️ \x27any\x27 Type Usage:", dashes] ++
    (if 0 < count then
      ["  ⚠️ Found " ++ toString count ++ " occurrences of \x27: any\x27"] ++
        (let sample := pyJoin "\n" (lines.take 5)
         if sample = "" then [] else [sample])
    else
      ["  ✅ No explicit \x27any\x27 types found"])

/-- Model of `check_type_assertions()`: drop lines containing `import`,
count the remaining non-empty lines, and print only the count line or the
success line. -/
def check_type_assertions (os : List String → ExecResult) : List String :=
  let lines := grepLines os grepAsCmd
  let filtered := lines.filter (fun l => l != "" && !(isSubstring "import".data l.data))
  let count := filtered.length
  ["\n⚠️ Type Assertions (as):", dashes] ++
    (if 0 < count then
      ["  ⚠️ Found " ++ toString count ++ " type assertions"]
    else
      ["  ✅ No type assertions found"])

/-!  Theorems about the embedded program. -/

/-- C1: with `capture_stderr = False`, the command runner executes the
argument vector as a child process and returns that process's captured
standard-output text (stderr is discarded). -/
theorem runCmd_returns_stdout (os : List String → ExecResult) (cmd : List String)
    (out err : String) (h : os cmd = ExecResult.ok out err) :
    runCmd os cmd false = out := by
  simp [runCmd, h]

/-- Witness for C1 at a concrete oracle and argument vector. -/
theorem runCmd_returns_stdout_w :
    runCmd (fun _ => ExecResult.ok "Version 5.4.5" "a warning") ["npx", "tsc", "--version"] false =
      "Version 5.4.5" :=
  runCmd_returns_stdout _ _ "Version 5.4.5" "a warning" rfl

/-- C3: the command runner is total; for either stderr option, on any
execution failure it returns the stringified exception as the result
string, so the caller always receives a string. -/
theorem runCmd_failure_returns_message (os : List String → ExecResult)
    (cmd : List String) (capture_stderr : Bool) (msg : String)
    (h : os cmd = ExecResult.exn msg) :
    runCmd os cmd capture_stderr = msg := by
  simp [runCmd, h]

/-- Witness for C3 at a concrete failing oracle. -/
theorem runCmd_failure_returns_message_w :
    runCmd (fun _ => ExecResult.exn "[Errno 2] No such file or directory: npx")
        ["npx", "tsc", "--noEmit"] true =
      "[Errno 2] No such file or directory: npx" :=
  runCmd_failure_returns_message _ _ true _ rfl

/-- C8: with `tsconfig.json` absent the config analyzer prints exactly the
not-found warning after its section header and returns (no flag lines, no
propagated error); with the file present but not valid JSON it prints
exactly one error line (again no flag lines, no propagated error). -/
theorem check_tsconfig_guarded :
    (∀ parsed : Except Unit JValue,
      check_tsconfig false parsed =
        (["\n⚙️ TSConfig Analysis:", dashes, "⚠️ tsconfig.json not found"], false)) ∧
    check_tsconfig true (Except.error ()) =
      (["\n⚙️ TSConfig Analysis:", dashes, "❌ Invalid JSON in tsconfig.json"], false) :=
  ⟨fun _ => rfl, rfl⟩

/-- C9: the single dependency name `turborepo` matches both the
`turborepo` and the `turbo` fragments, so the tooling detector prints two
label lines for that one dependency: deduplication is per fragment, not
per dependency name. -/
theorem check_tooling_double_label :
    check_tooling true (Except.ok (JValue.obj
      [("dependencies", JValue.obj [("turborepo", JValue.str "1.0.0")])])) =
    (["\n🛠️ Tooling Detection:", dashes, "  ✅ Turborepo (monorepo)",
      "  ✅ Turbo (monorepo)"], false) := by
  decide

/-- C10: when the config file (resp. the manifest) parses as valid JSON
whose top-level value is not an object, the `.get` attribute lookup raises
an uncaught exception that propagates out of the check, with nothing
printed beyond the section header. -/
theorem nonobject_json_raises (v : JValue) (hv : ∀ entries, v ≠ JValue.obj entries) :
    check_tsconfig true (Except.ok v) = (["\n⚙️ TSConfig Analysis:", dashes], true) ∧
    check_tooling true (Except.ok v) = (["\n🛠️ Tooling Detection:", dashes], true) := by
  cases v with
  | obj entries => exact absurd rfl (hv entries)
  | null => exact ⟨rfl, rfl⟩
  | bool b => exact ⟨rfl, rfl⟩
  | num n => exact ⟨rfl, rfl⟩
  | str s => exact ⟨rfl, rfl⟩
  | arr elems => exact ⟨rfl, rfl⟩

/-- Witness for C10 at the top-level JSON array `[]`. -/
theorem nonobject_json_raises_w :
    check_tsconfig true (Except.ok (JValue.arr [])) =
      (["\n⚙️ TSConfig Analysis:", dashes], true) ∧
    check_tooling true (Except.ok (JValue.arr [])) =
      (["\n🛠️ Tooling Detection:", dashes], true) :=
  nonobject_json_raises (JValue.arr []) (fun _ h => nomatch h)

/-- C7: the monorepo detector prints one checkmark line per present marker
file among the fixed four, and prints the single not-detected line exactly
when no marker is present. -/
theorem check_monorepo_lines (fileExists : String → Bool) :
    (check_monorepo fileExists).countP (fun l => "  ✅ ".data.isPrefixOf l.data) =
      indicators.countP (fun fn => fileExists fn.1) ∧
    (check_monorepo fileExists).countP
        (fun l => l == "  ⚪ No monorepo configuration detected") =
      (if indicators.countP (fun fn => fileExists fn.1) = 0 then 1 else 0) := by
  cases h1 : fileExists "pnpm-workspace.yaml" <;>
    cases h2 : fileExists "lerna.json" <;>
      cases h3 : fileExists "nx.json" <;>
        cases h4 : fileExists "turbo.json" <;>
          simp only [check_monorepo, indicators, List.filterMap_cons, List.filterMap_nil,
            List.countP_cons, List.countP_nil, h1, h2, h3, h4] <;>
            decide

/-- C5: the type-assertion scanner drops every matched line containing the
substring `import`, prints only the count of the remaining non-empty lines
(or the success indicator when that count is zero), and prints exactly
three lines in total, so never any sample lines. -/
theorem check_type_assertions_spec (os : List String → ExecResult) :
    check_type_assertions os =
      ["\n⚠️ Type Assertions (as):", dashes,
       if 0 < (grepLines os grepAsCmd).countP
            (fun l => l != "" && !(isSubstring "import".data l.data)) then
         "  ⚠️ Found " ++
           toString ((grepLines os grepAsCmd).countP
             (fun l => l != "" && !(isSubstring "import".data l.data))) ++
           " type assertions"
       else "  ✅ No type assertions found"] ∧
    (check_type_assertions os).length = 3 := by
  constructor
  · by_cases hc : 0 < ((grepLines os grepAsCmd).filter
        (fun l => l != "" && !(isSubstring "import".data l.data))).length
    · simp [check_type_assertions, List.countP_eq_length_filter, hc]
    · simp [check_type_assertions, List.countP_eq_length_filter, hc]
  · by_cases hc : 0 < ((grepLines os grepAsCmd).filter
        (fun l => l != "" && !(isSubstring "import".data l.data))).length
    · simp [check_type_assertions, hc]
    · simp [check_type_assertions, hc]

/-- C2: the type-error checker's output depends only on the first 20 lines
of the captured compiler text; when that truncated window contains the
substring of `errTS` it prints the occurrence count within the window
followed by a plus sign and then the first 500 characters of the window,
and otherwise it prints the success indicator, even when the substring
occurs after line 20 of the full output. -/
theorem check_type_errors_window :
    (∀ os1 os2 : List String → ExecResult,
        truncate20 (runCmd os1 tscNoEmit true) = truncate20 (runCmd os2 tscNoEmit true) →
        check_type_errors os1 = check_type_errors os2) ∧
    (∀ os : List String → ExecResult,
        (isSubstring errTS.data (truncate20 (runCmd os tscNoEmit true)).data = true →
          check_type_errors os =
            ["\n🔍 Type Check:", dashes,
             "  ❌ " ++
               toString (pyCount errTS.data (truncate20 (runCmd os tscNoEmit true)).data) ++
               "+ type errors found",
             String.mk ((truncate20 (runCmd os tscNoEmit true)).data.take 500)]) ∧
        (isSubstring errTS.data (truncate20 (runCmd os tscNoEmit true)).data = false →
          check_type_errors os = ["\n🔍 Type Check:", dashes, "  ✅ No type errors"])) := by
  refine ⟨fun os1 os2 h => ?_, fun os => ⟨fun h => ?_, fun h => ?_⟩⟩
  · simp only [check_type_errors, h]
  · simp [check_type_errors, h]
  · simp [check_type_errors, h]

/-- Simulated compiler output whose first 20 lines contain `error TS`
three times (the whole output has four lines). -/
def errWindowOut : String :=
  "a.ts(1,5): error TS2322: boom\nb\nc.ts(3,1): error TS2345: boom\nd.ts(4,2): error TS7006: boom"

/-- Simulated compiler output whose only `error TS` occurrence is on line
25, outside the 20-line truncation window. -/
def lateErrOut : String :=
  pyJoin "\n" (List.replicate 24 "ok" ++ ["x.ts(25,1): error TS9999: boom"])

/-- A longer output with the same first 20 lines as `lateErrOut`. -/
def lateErrOutMore : String := lateErrOut ++ "\ny.ts(27,1): error TS1111: boom"

/-- Witness for C2: the error branch at three in-window occurrences, the
success branch when the only error is on line 25, and window-invariance of
the output. -/
theorem check_type_errors_window_w :
    check_type_errors (fun _ => ExecResult.ok errWindowOut "") =
      ["\n🔍 Type Check:", dashes,
       "  ❌ " ++
         toString (pyCount errTS.data
           (truncate20 (runCmd (fun _ => ExecResult.ok errWindowOut "") tscNoEmit true)).data) ++
         "+ type errors found",
       String.mk ((truncate20
         (runCmd (fun _ => ExecResult.ok errWindowOut "") tscNoEmit true)).data.take 500)] ∧
    check_type_errors (fun _ => ExecResult.ok lateErrOut "") =
      ["\n🔍 Type Check:", dashes, "  ✅ No type errors"] ∧
    check_type_errors (fun _ => ExecResult.ok lateErrOut "") =
      check_type_errors (fun _ => ExecResult.ok lateErrOutMore "") :=
  ⟨(check_type_errors_window.2 _).1 (by decide),
   (check_type_errors_window.2 _).2 (by decide),
   check_type_errors_window.1 _ _ (by decide)⟩

/-- The inner dependency loop of `check_tooling` finds a match exactly when
some merged dependency name contains the fragment case-insensitively. -/
theorem firstDepMatch_eq_any (tool : String) (deps : List String) :
    firstDepMatch tool deps =
      deps.any (fun dep => isSubstring tool.data (pyLower dep).data) := by
  induction deps with
  | nil => rfl
  | cons d rest ih =>
    simp only [firstDepMatch, List.any_cons, ← ih]
    by_cases hc : isSubstring tool.data (pyLower d).data
    · simp [hc]
    · simp [hc]

/-- A label line that no entry of the tool list carries never appears in
the tooling loop's output. -/
theorem count_toolsLoop_zero (allDeps : List String) (ts : List (String × String))
    (target : String) (h : target ∉ ts.map (fun td => "  ✅ " ++ td.2)) :
    (toolsLoop allDeps ts).count target = 0 := by
  induction ts with
  | nil => simp [toolsLoop]
  | cons td rest ih =>
    simp only [List.map_cons, List.mem_cons, not_or] at h
    obtain ⟨h1, h2⟩ := h
    simp only [toolsLoop, List.count_append, ih h2, Nat.add_zero]
    by_cases hm : firstDepMatch td.1 allDeps
    · simp [hm, List.count_singleton', h1]
    · simp [hm]

/-- The tooling loop prints the label of a listed fragment exactly once
when some dependency name matches the fragment and not at all otherwise,
provided the tool labels are pairwise distinct. -/
theorem count_toolsLoop_mem (allDeps : List String) (ts : List (String × String))
    (tool desc : String) (hmem : (tool, desc) ∈ ts)
    (hnd : (ts.map (fun td => "  ✅ " ++ td.2)).Nodup) :
    (toolsLoop allDeps ts).count ("  ✅ " ++ desc) =
      if firstDepMatch tool allDeps then 1 else 0 := by
  induction ts with
  | nil => exact absurd hmem (List.not_mem_nil _)
  | cons td rest ih =>
    simp only [List.map_cons, List.nodup_cons] at hnd
    obtain ⟨hhd, hnd'⟩ := hnd
    rcases List.mem_cons.mp hmem with heq | hmem'
    · subst heq
      simp only [toolsLoop, List.count_append]
      rw [count_toolsLoop_zero allDeps rest _ hhd]
      by_cases hm : firstDepMatch (tool, desc).1 allDeps
      · simp [hm, List.count_singleton']
      · simp [hm]
    · have htl : ("  ✅ " ++ desc) ∈ rest.map (fun td => "  ✅ " ++ td.2) :=
        List.mem_map.mpr ⟨(tool, desc), hmem', rfl⟩
      have hne : ¬("  ✅ " ++ td.2 = "  ✅ " ++ desc) := fun e => hhd (e ▸ htl)
      simp only [toolsLoop, List.count_append, ih hmem' hnd']
      by_cases hm : firstDepMatch td.1 allDeps
      · simp [hm, List.count_singleton', hne]
      · simp [hm]

/-- C6: for every dependency manifest and every fragment of the fixed tool
list, the tooling detector prints that fragment's label exactly once when
some merged dependency key contains the fragment case-insensitively, and
never otherwise; several keys matching the same fragment still give one
line. -/
theorem check_tooling_label_once (d1 d2 : List (String × JValue)) (tool desc : String)
    (hm : (tool, desc) ∈ tools) :
    ((check_tooling true (Except.ok (JValue.obj
        [("dependencies", JValue.obj d1), ("devDependencies", JValue.obj d2)]))).1).count
        ("  ✅ " ++ desc) =
      if (mergedKeys d1 d2).any (fun dep => isSubstring tool.data (pyLower dep).data)
      then 1 else 0 := by
  have hout : (check_tooling true (Except.ok (JValue.obj
      [("dependencies", JValue.obj d1), ("devDependencies", JValue.obj d2)]))).1 =
      ["\n🛠️ Tooling Detection:", dashes] ++ toolsLoop (mergedKeys d1 d2) tools := rfl
  rw [hout, List.count_append,
    count_toolsLoop_mem (mergedKeys d1 d2) tools tool desc hm (by decide),
    firstDepMatch_eq_any]
  simp only [tools, List.mem_cons, Prod.mk.injEq, List.not_mem_nil, or_false] at hm
  rcases hm with ⟨h1, rfl⟩ | ⟨h1, rfl⟩ | ⟨h1, rfl⟩ | ⟨h1, rfl⟩ | ⟨h1, rfl⟩ |
    ⟨h1, rfl⟩ | ⟨h1, rfl⟩ | ⟨h1, rfl⟩ | ⟨h1, rfl⟩ <;>
    simp [List.count_cons, dashes]

/-- Witness for C6: two dependency keys both matching the `eslint` fragment
still yield the count given by the theorem (which evaluates to one line). -/
theorem check_tooling_label_once_w :
    ((check_tooling true (Except.ok (JValue.obj
        [("dependencies", JValue.obj
           [("eslint-config-x", JValue.str "1.0.0"), ("eslint-plugin-y", JValue.str "2.0.0")]),
         ("devDependencies", JValue.obj [])]))).1).count
        ("  ✅ " ++ "ESLint") =
      if (mergedKeys
            [("eslint-config-x", JValue.str "1.0.0"), ("eslint-plugin-y", JValue.str "2.0.0")]
            []).any (fun dep => isSubstring "eslint".data (pyLower dep).data)
      then 1 else 0 :=
  check_tooling_label_once _ _ "eslint" "ESLint" (by decide)

/-- Joining the first five of a list of lines at least one of which is
non-empty never gives the empty string. -/
theorem pyJoin_ne_of_cons_cons (a b : String) (t : List String) :
    pyJoin "\n" (a :: b :: t) ≠ "" := by
  intro hc
  have h2 : (a ++ "\n" ++ pyJoin "\n" (b :: t)).length = ("" : String).length :=
    congrArg String.length hc
  rw [String.length_append, String.length_append] at h2
  have hnl : ("\n" : String).length = 1 := rfl
  have hz : ("" : String).length = 0 := rfl
  omega

/-- When some line is non-empty, the sample text printed by the
unsafe-type-usage scanner is non-empty. -/
theorem pyJoin_take5_ne (lines : List String)
    (h : 0 < (lines.filter (fun l => l != "")).length) :
    pyJoin "\n" (lines.take 5) ≠ "" := by
  cases lines with
  | nil => simp at h
  | cons a rest =>
    cases rest with
    | nil =>
      by_cases ha : a = ""
      · subst ha
        simp at h
      · show pyJoin "\n" [a] ≠ ""
        simpa [pyJoin] using ha
    | cons b rest2 =>
      show pyJoin "\n" (a :: b :: rest2.take 3) ≠ ""
      exact pyJoin_ne_of_cons_cons a b (rest2.take 3)

/-- C4 counterexample: on the result text `a`, blank, `b`, `c`, `d`, `e`,
`f` the scanner counts six matching (non-empty) lines but the sample it
prints is the first five raw lines including the blank one, which is not
the first `min(count, 5)` matching lines: line `e` is missing and an empty
line is shown. -/
theorem check_any_usage_claim_cex :
    check_any_usage (fun _ => ExecResult.ok "a\n\nb\nc\nd\ne\nf" "") =
      ["\n⚠️ \x27any\x27 Type Usage:", dashes,
       "  ⚠️ Found 6 occurrences of \x27: any\x27", "a\n\nb\nc\nd"] ∧
    pySplitNL "a\n\nb\nc\nd" ≠
      (((pySplitNL (pyStrip (runCmd (fun _ => ExecResult.ok "a\n\nb\nc\nd\ne\nf" "")
            grepAnyCmd false))).filter (fun l => l != "")).take
        (min ((pySplitNL (pyStrip (runCmd (fun _ => ExecResult.ok "a\n\nb\nc\nd\ne\nf" "")
            grepAnyCmd false))).filter (fun l => l != "")).length 5)) := by
  decide

/-- C4 as amended: the scanner counts the non-empty lines; when the count
is positive it prints the count and then the first `min(lineCount, 5)`
lines of the stripped text joined verbatim (these may include empty lines);
when the count is zero it prints the success indicator; and when no line is
empty the printed sample lines are exactly the first `min(count, 5)`
matching lines. -/
theorem check_any_usage_amended (os : List String → ExecResult) :
    (0 < ((grepLines os grepAnyCmd).filter (fun l => l != "")).length →
      check_any_usage os =
        ["\n⚠️ \x27any\x27 Type Usage:", dashes,
         "  ⚠️ Found " ++
           toString ((grepLines os grepAnyCmd).filter (fun l => l != "")).length ++
           " occurrences of \x27: any\x27",
         pyJoin "\n" ((grepLines os grepAnyCmd).take 5)]) ∧
    (((grepLines os grepAnyCmd).filter (fun l => l != "")).length = 0 →
      check_any_usage os =
        ["\n⚠️ \x27any\x27 Type Usage:", dashes, "  ✅ No explicit \x27any\x27 types found"]) ∧
    ((grepLines os grepAnyCmd).all (fun l => l != "") = true →
      (grepLines os grepAnyCmd).take 5 =
        ((grepLines os grepAnyCmd).filter (fun l => l != "")).take 5) := by
  refine ⟨fun h => ?_, fun h => ?_, fun h => ?_⟩
  · have hs := pyJoin_take5_ne (grepLines os grepAnyCmd) h
    simp [check_any_usage, h, hs]
  · simp [check_any_usage, h]
  · rw [List.filter_eq_self.mpr (by simpa using List.all_eq_true.mp h)]

/-- Simulated search result with seven matching lines. -/
def sevenHits : List String → ExecResult := fun _ => ExecResult.ok
  ("src/a.ts:1:const x: any = 1\nsrc/a.ts:2:let y: any\nsrc/b.ts:3:f(a: any)\nsrc/b.ts:4:g(b: any)\nsrc/c.ts:5:h(c: any)\nsrc/c.ts:6:i(d: any)\nsrc/d.ts:7:j(e: any)") ""

set_option maxRecDepth 8000 in
/-- Witness for C4 as amended: seven matching lines give count 7 and
exactly the first five lines as the sample. -/
theorem check_any_usage_amended_w :
    check_any_usage sevenHits =
      ["\n⚠️ \x27any\x27 Type Usage:", dashes,
       "  ⚠️ Found 7 occurrences of \x27: any\x27",
       "src/a.ts:1:const x: any = 1\nsrc/a.ts:2:let y: any\nsrc/b.ts:3:f(a: any)\nsrc/b.ts:4:g(b: any)\nsrc/c.ts:5:h(c: any)"] := by
  have h := (check_any_usage_amended sevenHits).1 (by decide)
  exact h.trans (by decide)
